import Mathlib

/-!
Verification development for the ZEN-garden capacity-expansion model builder.

The Python sources are shallowly embedded: each constraint-building routine is
translated into a Lean function that, given the index sets, parameters and a
valuation of the decision variables, produces the arithmetic content of the
emitted constraint.  Machine floats are embedded as rationals, yearly time
steps as integers (the model enumerates them as 0-based integer coordinates),
and identifiers as strings.  Functions whose defining module is absent from
the repository snapshot are modelled from the specification and say so in
their doc comment.
-/

namespace ZenGarden

/-! ## Nodal energy balance (carrier.py, `get_constraint_nodal_energy_balance`) -/

/-- Directed graph of the energy system: nodes and named directed edges. -/
structure EnergySystemGraph where
  nodes : List String
  edges : List String
  edgeNodeFrom : String → String
  edgeNodeTo : String → String

/-- Modelled from the spec: `EnergySystem.calculate_connected_edges`
(energy_system.py is not part of the snapshot).  Per the spec, `in(n)` is the
set of edges into node `n` and `out(n)` the set of edges leaving it. -/
def calculate_connected_edges (g : EnergySystemGraph) (node : String) (direction : String) : List String :=
  if direction = "in" then g.edges.filter (fun e => g.edgeNodeTo e = node)
  else g.edges.filter (fun e => g.edgeNodeFrom e = node)

/-- The element sets consulted by the nodal balance: conversion, transport and
storage technologies with their input/output/reference carriers
(`sets["set_input_carriers"]` etc.; reference carrier lists are effectively
singletons, cf. the `[0]` accesses elsewhere in the source). -/
structure BalanceSets where
  set_conversion_technologies : List String
  set_transport_technologies : List String
  set_storage_technologies : List String
  set_input_carriers : String → List String
  set_output_carriers : String → List String
  set_reference_carriers : String → List String

/-- A valuation of the operational decision variables appearing in the nodal
energy balance (indices: technology, carrier/edge/node, operational step). -/
structure BalanceVars where
  output_flow : String → String → String → ℕ → ℚ
  input_flow : String → String → String → ℕ → ℚ
  carrier_flow : String → String → ℕ → ℚ
  carrier_loss : String → String → ℕ → ℚ
  carrier_flow_discharge : String → String → ℕ → ℚ
  carrier_flow_charge : String → String → ℕ → ℚ
  import_carrier_flow : String → String → ℕ → ℚ
  export_carrier_flow : String → String → ℕ → ℚ

/-- Left-hand side of the nodal energy balance as the source builds it: the
groups pair `output_flow` positively and `input_flow` negatively for
conversion technologies whose carriers match, the expression
`carrier_flow - carrier_loss` with the group built from
`calculate_connected_edges(node, "out")`, the expression `-carrier_flow`
with the group built from `calculate_connected_edges(node, "in")`, storage
discharge minus charge, plus import minus export. -/
def nodal_energy_balance_lhs (g : EnergySystemGraph) (s : BalanceSets) (v : BalanceVars)
    (carrier node : String) (t : ℕ) : ℚ :=
  ((s.set_conversion_technologies.filter (fun h => carrier ∈ s.set_output_carriers h)).map
      (fun h => v.output_flow h carrier node t)).sum
  - ((s.set_conversion_technologies.filter (fun h => carrier ∈ s.set_input_carriers h)).map
      (fun h => v.input_flow h carrier node t)).sum
  + ((s.set_transport_technologies.filter (fun h => carrier ∈ s.set_reference_carriers h)).map
      (fun h =>
        ((calculate_connected_edges g node "out").map
            (fun e => v.carrier_flow h e t - v.carrier_loss h e t)).sum
        - ((calculate_connected_edges g node "in").map (fun e => v.carrier_flow h e t)).sum)).sum
  + ((s.set_storage_technologies.filter (fun h => carrier ∈ s.set_reference_carriers h)).map
      (fun h => v.carrier_flow_discharge h node t - v.carrier_flow_charge h node t)).sum
  + v.import_carrier_flow carrier node t - v.export_carrier_flow carrier node t

/-- Left-hand side of the nodal balance as the claim states it: transport
flow on edges into the node contributes `flow - loss` positively and flow on
edges out of the node is subtracted. -/
def claimed_nodal_energy_balance_lhs (g : EnergySystemGraph) (s : BalanceSets) (v : BalanceVars)
    (carrier node : String) (t : ℕ) : ℚ :=
  ((s.set_conversion_technologies.filter (fun h => carrier ∈ s.set_output_carriers h)).map
      (fun h => v.output_flow h carrier node t)).sum
  - ((s.set_conversion_technologies.filter (fun h => carrier ∈ s.set_input_carriers h)).map
      (fun h => v.input_flow h carrier node t)).sum
  + ((s.set_transport_technologies.filter (fun h => carrier ∈ s.set_reference_carriers h)).map
      (fun h =>
        ((calculate_connected_edges g node "in").map
            (fun e => v.carrier_flow h e t - v.carrier_loss h e t)).sum
        - ((calculate_connected_edges g node "out").map (fun e => v.carrier_flow h e t)).sum)).sum
  + ((s.set_storage_technologies.filter (fun h => carrier ∈ s.set_reference_carriers h)).map
      (fun h => v.carrier_flow_discharge h node t - v.carrier_flow_charge h node t)).sum
  + v.import_carrier_flow carrier node t - v.export_carrier_flow carrier node t

/-- The emitted nodal balance constraint for one `(carrier, node, step)`
tuple: an equality between the assembled left-hand side and the demand
parameter (the sign array is `"=="` in the source). -/
def nodal_energy_balance_constraint (g : EnergySystemGraph) (s : BalanceSets) (v : BalanceVars)
    (demand_carrier : String → String → ℕ → ℚ) (carrier node : String) (t : ℕ) : Prop :=
  nodal_energy_balance_lhs g s v carrier node t = demand_carrier carrier node t

/-- Concrete single-edge network used to exercise the balance: one transport
technology `T` on edge `e1` from node `na` to node `nb`. -/
def balanceGraphEx : EnergySystemGraph :=
  ⟨["na", "nb"], ["e1"], fun _ => "na", fun _ => "nb"⟩

/-- Element sets of the single-edge example: only the transport technology
`T`, with reference carrier `c`. -/
def balanceSetsEx : BalanceSets :=
  ⟨[], ["T"], [], fun _ => [], fun _ => [], fun _ => ["c"]⟩

/-- Valuation of the single-edge example: 10 units flow on `e1`, 1 unit lost,
every other variable zero. -/
def balanceVarsEx : BalanceVars :=
  { output_flow := fun _ _ _ _ => 0
    input_flow := fun _ _ _ _ => 0
    carrier_flow := fun _ _ _ => 10
    carrier_loss := fun _ _ _ => 1
    carrier_flow_discharge := fun _ _ _ => 0
    carrier_flow_charge := fun _ _ _ => 0
    import_carrier_flow := fun _ _ _ => 0
    export_carrier_flow := fun _ _ _ => 0 }

/-- C1: at the destination node `nb` of the single incoming edge the source
builds the balance left-hand side as `-flow = -10`, while the claim states it
as `flow - loss = 9`: the transport in/out terms of the emitted equality are
swapped relative to the claim. -/
theorem C1_nodal_balance_transport_terms_swapped :
    nodal_energy_balance_lhs balanceGraphEx balanceSetsEx balanceVarsEx "c" "nb" 0 = -10
    ∧ claimed_nodal_energy_balance_lhs balanceGraphEx balanceSetsEx balanceVarsEx "c" "nb" 0 = 9 := by
  constructor <;>
    · simp only [nodal_energy_balance_lhs, claimed_nodal_energy_balance_lhs,
        calculate_connected_edges, balanceGraphEx, balanceSetsEx, balanceVarsEx]
      norm_num
      decide

/-! ## Lifetime accounting (technology.py, `constraint_technology_lifetime`) -/

/-- `Technology.get_first_lifetime_time_step`: the source takes the floor of
`lifetime / interval_between_years` (comment: conservative estimate), subtracts
one, and steps back from `year`. -/
def get_first_lifetime_time_step (lifetime interval_between_years : ℕ) (year : ℤ) : ℤ :=
  year - ((lifetime / interval_between_years : ℕ) - 1 : ℤ)

/-- `Technology.get_lifetime_range`: the years from the first lifetime step
(clipped at the first in-horizon step `y0`) up to `year` inclusive. -/
def get_lifetime_range (y0 : ℤ) (lifetime interval_between_years : ℕ) (year : ℤ) : Finset ℤ :=
  Finset.Icc (max (get_first_lifetime_time_step lifetime interval_between_years year) y0) year

/-- The coefficient support actually emitted by
`constraint_technology_lifetime`: the mask Series is built by stacking the
per-`(tech, year)` window lists into a DataFrame and then overwriting every
value with `-1`, so the surviving index level is the stacked COLUMN POSITION
`0, 1, ..., len-1`, not the window year itself; those positions align with
the 0-based yearly coordinates of `capacity_addition`. -/
def lifetime_mask_positions (y0 : ℤ) (lifetime interval_between_years : ℕ) (year : ℤ) : Finset ℤ :=
  Finset.Ico 0 ((get_lifetime_range y0 lifetime interval_between_years year).card : ℤ)

/-- Sum of capacity additions as the emitted lifetime constraint accumulates
them: over the stacked positions `0..len-1` of the window. -/
def constraint_technology_lifetime_addition_sum (capacity_addition : ℤ → ℚ)
    (y0 : ℤ) (lifetime interval_between_years : ℕ) (year : ℤ) : ℚ :=
  ∑ j ∈ lifetime_mask_positions y0 lifetime interval_between_years year, capacity_addition j

/-- Sum of capacity additions as the claim states it: over the in-horizon
years of the lifetime window `[max(y0, year - ceil(lifetime/interval) + 1), year]`. -/
def claimed_lifetime_addition_sum (capacity_addition : ℤ → ℚ)
    (y0 : ℤ) (lifetime interval_between_years : ℕ) (year : ℤ) : ℚ :=
  ∑ j ∈ Finset.Icc
      (max y0 (year - (((lifetime + interval_between_years - 1) / interval_between_years : ℕ) : ℤ) + 1)) year,
    capacity_addition j

/-- The emitted `capacity` equation of `constraint_technology_lifetime`. -/
def constraint_technology_lifetime_eq (capacity capacity_addition existing_capacities : ℤ → ℚ)
    (y0 : ℤ) (lifetime interval_between_years : ℕ) (year : ℤ) : Prop :=
  capacity year =
    constraint_technology_lifetime_addition_sum capacity_addition y0 lifetime interval_between_years year
    + existing_capacities year

/-- The emitted `capacity_previous` equation: the same window sum minus the
current year's own addition, plus the surviving existing stock. -/
def constraint_technology_lifetime_previous_eq
    (capacity_previous capacity_addition existing_capacities : ℤ → ℚ)
    (y0 : ℤ) (lifetime interval_between_years : ℕ) (year : ℤ) : Prop :=
  capacity_previous year =
    constraint_technology_lifetime_addition_sum capacity_addition y0 lifetime interval_between_years year
    - capacity_addition year + existing_capacities year

/-- Capacity additions used as the C2 counterexample: 7 in year 0, 5 in
year 2, nothing else. -/
def additionEx : ℤ → ℚ := fun j => if j = 0 then 7 else if j = 2 then 5 else 0

/-- C2: with lifetime 2, interval 1, horizon start 0 and year 2, the window
of the claim is the years 1..2 (sum 5), but the emitted constraint sums the
stacked positions 0..1, i.e. the additions of years 0..1 (sum 7): the code
retires the latest additions instead of the oldest. -/
theorem C2_lifetime_window_positions_not_years :
    constraint_technology_lifetime_addition_sum additionEx 0 2 1 2 = 7
    ∧ claimed_lifetime_addition_sum additionEx 0 2 1 2 = 5 := by
  have hpos : lifetime_mask_positions 0 2 1 2 = {0, 1} := by decide
  have hicc : Finset.Icc (max (0:ℤ) (2 - ((2 + 1 - 1) / 1 : ℕ) + 1)) 2 = {1, 2} := by decide
  constructor
  · rw [constraint_technology_lifetime_addition_sum, hpos]
    norm_num [additionEx]
  · rw [claimed_lifetime_addition_sum, hicc]
    norm_num [additionEx]

/-! ## Unbounded market share term (technology.py, `constraint_technology_diffusion_limit`) -/

/-- The kind classes of technologies distinguished by the model. -/
inductive TechnologyKind where
  | conversion
  | transport
  | storage
deriving DecidableEq

/-- Coefficient of the `market_share_unbounded` array the source builds over
all pairs of technologies: the unbounded market share parameter when the
first reference carriers agree, and zero otherwise (no restriction on the
technology kind). -/
def market_share_unbounded_coeff (set_reference_carriers_first : String → String)
    (market_share_unbounded : ℚ) (t ot : String) : ℚ :=
  if set_reference_carriers_first t = set_reference_carriers_first ot then market_share_unbounded
  else 0

/-- `term_unbounded_addition` of the diffusion-limit rule: the coefficient
array contracted with `capacity_previous` over the `set_other_technologies`
dimension (ranging over all of `set_technologies`). -/
def term_unbounded_addition (set_technologies : List String)
    (set_reference_carriers_first : String → String) (market_share_unbounded : ℚ)
    (capacity_previous : String → ℚ) (t : String) : ℚ :=
  (set_technologies.map (fun ot =>
      market_share_unbounded_coeff set_reference_carriers_first market_share_unbounded t ot
        * capacity_previous ot)).sum

/-- The unbounded-market-share term as the claim states it: only siblings that
share the reference carrier AND belong to the same kind class contribute. -/
def claimed_term_unbounded_addition (set_technologies : List String)
    (set_reference_carriers_first : String → String) (kind : String → TechnologyKind)
    (market_share_unbounded : ℚ) (capacity_previous : String → ℚ) (t : String) : ℚ :=
  ((set_technologies.filter (fun ot =>
        decide (set_reference_carriers_first t = set_reference_carriers_first ot)
          && decide (kind ot = kind t))).map
      (fun ot => market_share_unbounded * capacity_previous ot)).sum

/-- Reference carriers of the C4 example: both example technologies have
reference carrier `electricity`. -/
def refEx : String → String := fun _ => "electricity"

/-- Kinds of the C4 example: `electrolyzer` is a conversion technology,
`battery` a storage technology. -/
def kindEx : String → TechnologyKind := fun t =>
  if t = "battery" then TechnologyKind.storage else TechnologyKind.conversion

/-- Previous capacities of the C4 example: 3 for `battery`, 0 otherwise. -/
def prevEx : String → ℚ := fun t => if t = "battery" then 3 else 0

/-- C4 counterexample: for the conversion technology `electrolyzer`, the
storage technology `battery` shares the reference carrier but not the kind
class; the emitted term picks up its previous capacity (value 3) while the
claim says it contributes with coefficient zero (value 0). -/
theorem C4_market_share_kind_restriction_fails :
    term_unbounded_addition ["electrolyzer", "battery"] refEx 1 prevEx "electrolyzer"
      ≠ claimed_term_unbounded_addition ["electrolyzer", "battery"] refEx kindEx 1 prevEx
          "electrolyzer" := by
  have h1 : term_unbounded_addition ["electrolyzer", "battery"] refEx 1 prevEx "electrolyzer"
      = 3 := by
    simp only [term_unbounded_addition, market_share_unbounded_coeff, refEx, prevEx]
    norm_num
    decide
  have h2 : claimed_term_unbounded_addition ["electrolyzer", "battery"] refEx kindEx 1 prevEx
      "electrolyzer" = 0 := by
    have hf : (["electrolyzer", "battery"].filter (fun ot =>
        decide (refEx "electrolyzer" = refEx ot) && decide (kindEx ot = kindEx "electrolyzer")))
        = ["electrolyzer"] := by decide
    simp [claimed_term_unbounded_addition, hf, prevEx]
  rw [h1, h2]
  norm_num

/-- C4 amended: the emitted unbounded-market-share term equals the unbounded
market share parameter times the summed previous capacity of ALL technologies
sharing the reference carrier, regardless of their kind class. -/
theorem C4_market_share_sums_all_reference_carrier_siblings (s : List String)
    (ref : String → String) (xi : ℚ) (prev : String → ℚ) (t : String) :
    term_unbounded_addition s ref xi prev t
      = xi * ((s.filter (fun ot => decide (ref t = ref ot))).map prev).sum := by
  induction s with
  | nil => simp [term_unbounded_addition]
  | cons a l ih =>
    have hterm : term_unbounded_addition (a :: l) ref xi prev t
        = market_share_unbounded_coeff ref xi t a * prev a
          + term_unbounded_addition l ref xi prev t := by
      simp [term_unbounded_addition]
    rw [hterm, ih, List.filter_cons]
    by_cases h : ref t = ref a
    · rw [decide_eq_true h]
      simp only [if_true, List.map_cons, List.sum_cons, market_share_unbounded_coeff, if_pos h]
      ring
    · rw [decide_eq_false h]
      simp only [Bool.false_eq_true, if_false, market_share_unbounded_coeff, if_neg h]
      ring

/-! ## Diffusion limit (technology.py, `constraint_technology_diffusion_limit`) -/

/-- The index over which the vectorized diffusion-limit rule emits rows: the
inequality arrays `lhs_an <= rhs_an` span every `(technology, yearly step)`
combination; the active code contains no filter on the diffusion rate. -/
def constraint_technology_diffusion_limit_index (set_technologies : List String)
    (set_time_steps_yearly : List ℤ) : List (String × ℤ) :=
  set_technologies.flatMap (fun t => set_time_steps_yearly.map (fun y => (t, y)))

/-- The diffusion-limit index as the spec states it: tuples whose maximum
diffusion rate is infinite are skipped. -/
def spec_diffusion_limit_index (set_technologies : List String)
    (set_time_steps_yearly : List ℤ) (max_diffusion_rate_infinite : String → ℤ → Bool) :
    List (String × ℤ) :=
  (constraint_technology_diffusion_limit_index set_technologies set_time_steps_yearly).filter
    (fun p => ! max_diffusion_rate_infinite p.1 p.2)

/-- `tdr`, the technology diffusion rate per investment period:
`(1 + max_diffusion_rate) ^ interval_between_years - 1`. -/
def technology_diffusion_rate_factor (max_diffusion_rate : ℚ) (interval_between_years : ℕ) : ℚ :=
  (1 + max_diffusion_rate) ^ interval_between_years - 1

/-- Data consulted by the diffusion-limit rule (finite diffusion-rate values;
lifetimes embedded as integers, as all exponents of the depreciation base are
integer-valued). -/
structure DiffusionData where
  set_technologies : List String
  set_time_steps_yearly : List ℤ
  set_nodes : List String
  set_location : List String
  interval_between_years : ℕ
  knowledge_depreciation_rate : ℚ
  knowledge_spillover_rate : ℚ
  market_share_unbounded : ℚ
  set_reference_carriers_first : String → String
  spillover_masked : String → String → Bool
  capacity_addition_unbounded : String → ℚ
  max_diffusion_rate : String → ℤ → ℚ
  lifetime : String → ℤ
  lifetime_existing : String → String → ℕ → ℤ
  capacity_existing : String → String → ℕ → ℚ
  set_technologies_existing : String → List ℕ

/-- `term_knowledge` of the rule: prior capacity additions plus the spillover
from the other nodes (the spillover rate is masked to zero for transport
technologies and edge locations), each depreciated by
`(1 - delta) ^ (interval * (year - 1 - previous_year))`. -/
def term_total_capacity_knowledge_addition (d : DiffusionData)
    (capacity_addition : String → String → ℤ → ℚ) (tech loc : String) (year : ℤ) : ℚ :=
  ((d.set_time_steps_yearly.filter (fun py => decide (py < year))).map (fun py =>
      let spillover := (d.set_nodes.map (fun n2 => capacity_addition tech n2 py)).sum
        - capacity_addition tech loc py
      let sr := if d.spillover_masked tech loc then 0 else d.knowledge_spillover_rate
      (capacity_addition tech loc py + sr * spillover)
        * (1 - d.knowledge_depreciation_rate)
            ^ ((d.interval_between_years : ℤ) * (year - 1 - py)))).sum

/-- The existing-capacity part of the knowledge stock: existing generations
plus spillover from the other locations, depreciated by
`(1 - delta) ^ (interval * (year - 1 - y0) + lifetime - lifetime_existing)`. -/
def term_total_capacity_knowledge_existing (d : DiffusionData) (y0 : ℤ)
    (tech loc : String) (year : ℤ) : ℚ :=
  ((d.set_technologies_existing tech).map (fun i =>
      let spillover := (d.set_location.map (fun l2 => d.capacity_existing tech l2 i)).sum
        - d.capacity_existing tech loc i
      (d.capacity_existing tech loc i + d.knowledge_spillover_rate * spillover)
        * (1 - d.knowledge_depreciation_rate)
            ^ ((d.interval_between_years : ℤ) * (year - 1 - y0)
                + d.lifetime tech - d.lifetime_existing tech loc i))).sum

/-- Right-hand side of the emitted diffusion-limit inequality `rhs_an`:
`tdr * (existing knowledge) + capacity_addition_unbounded` — the unbounded
addition parameter enters WITHOUT the interval factor. -/
def constraint_technology_diffusion_limit_rhs (d : DiffusionData) (y0 : ℤ)
    (tech loc : String) (year : ℤ) : ℚ :=
  technology_diffusion_rate_factor (d.max_diffusion_rate tech year) d.interval_between_years
      * term_total_capacity_knowledge_existing d y0 tech loc year
    + d.capacity_addition_unbounded tech

/-- The emitted diffusion-limit inequality for one `(tech, loc, year)` tuple:
`capacity_addition - tdr * knowledge_additions - market_share_term <= rhs_an`. -/
def constraint_technology_diffusion_limit_ineq (d : DiffusionData) (y0 : ℤ)
    (capacity_addition capacity_previous : String → String → ℤ → ℚ)
    (tech loc : String) (year : ℤ) : Prop :=
  capacity_addition tech loc year
    - technology_diffusion_rate_factor (d.max_diffusion_rate tech year) d.interval_between_years
        * term_total_capacity_knowledge_addition d capacity_addition tech loc year
    - term_unbounded_addition d.set_technologies d.set_reference_carriers_first
        d.market_share_unbounded (fun ot => capacity_previous ot loc year) tech
  ≤ constraint_technology_diffusion_limit_rhs d y0 tech loc year

/-- The upper bound as the claim states it for finite diffusion rates:
`((1 + rate) ^ interval - 1) * K + capacity_addition_unbounded * interval`,
with `K` the full decayed knowledge stock. -/
def claimed_diffusion_limit_bound (d : DiffusionData) (y0 : ℤ)
    (capacity_addition : String → String → ℤ → ℚ) (tech loc : String) (year : ℤ) : ℚ :=
  technology_diffusion_rate_factor (d.max_diffusion_rate tech year) d.interval_between_years
      * (term_total_capacity_knowledge_addition d capacity_addition tech loc year
          + term_total_capacity_knowledge_existing d y0 tech loc year)
    + d.capacity_addition_unbounded tech * (d.interval_between_years : ℚ)

/-- Diffusion data of the C3 example: one technology `wind`, two yearly steps,
interval of 2 years between steps, unbounded addition parameter 1, no
existing capacities, no depreciation and no spillover. -/
def diffusionDataEx : DiffusionData :=
  { set_technologies := ["wind"]
    set_time_steps_yearly := [0, 1]
    set_nodes := ["n1"]
    set_location := ["n1"]
    interval_between_years := 2
    knowledge_depreciation_rate := 0
    knowledge_spillover_rate := 0
    market_share_unbounded := 0
    set_reference_carriers_first := fun _ => "electricity"
    spillover_masked := fun _ _ => false
    capacity_addition_unbounded := fun _ => 1
    max_diffusion_rate := fun _ _ => 1 / 10
    lifetime := fun _ => 20
    lifetime_existing := fun _ _ _ => 10
    capacity_existing := fun _ _ _ => 0
    set_technologies_existing := fun _ => [] }

/-- Marker of the C3 example declaring the diffusion rate of `wind` at yearly
step 1 to be infinite. -/
def diffusionInfiniteEx : String → ℤ → Bool := fun _ y => decide (y = 1)

/-- C3: the vectorized rule emits a row for the tuple `(wind, 1)` even though
its diffusion rate is infinite (the spec skips it), and for finite rates the
emitted right-hand side carries the unbounded addition parameter without the
interval factor: 1 instead of the claimed 1 * 2 = 2. -/
theorem C3_diffusion_limit_no_skip_and_unscaled_zeta :
    ("wind", (1 : ℤ)) ∈ constraint_technology_diffusion_limit_index ["wind"] [0, 1]
    ∧ ("wind", (1 : ℤ)) ∉ spec_diffusion_limit_index ["wind"] [0, 1] diffusionInfiniteEx
    ∧ constraint_technology_diffusion_limit_rhs diffusionDataEx 0 "wind" "n1" 1 = 1
    ∧ claimed_diffusion_limit_bound diffusionDataEx 0 (fun _ _ _ => 0) "wind" "n1" 1 = 2 := by
  refine ⟨by decide, by decide, ?_, ?_⟩
  · simp [constraint_technology_diffusion_limit_rhs, term_total_capacity_knowledge_existing,
      diffusionDataEx]
  · simp [claimed_diffusion_limit_bound, term_total_capacity_knowledge_existing,
      term_total_capacity_knowledge_addition, diffusionDataEx,
      technology_diffusion_rate_factor]

/-! ## Construction time (technology.py, `constraint_technology_construction_time`) -/

/-- `Technology.get_investment_time_step`: step back from `year` by the
ceiling of `construction_time / interval_between_years` (comment in the
source: conservative estimate, ceil). -/
def get_investment_time_step (construction_time interval_between_years : ℕ) (year : ℤ) : ℤ :=
  year
    - (((construction_time + interval_between_years - 1) / interval_between_years : ℕ) : ℤ)

/-- Right-hand side of the emitted construction-time equality for one tuple,
after moving the investment term to the right: the in-horizon investment when
the investment step lies in `set_time_steps_yearly`, else the pre-horizon
investment selected by the `mask_other_time_steps` Series (whose value test
`investment_time.isin(...)` inspects the Series VALUES, which are all `1`)
aligned against the coordinates of `capacity_investment_existing`. -/
def constraint_technology_construction_time_rhs
    (set_time_steps_yearly set_time_steps_yearly_entire_horizon : Finset ℤ)
    (capacity_investment capacity_investment_existing : ℤ → ℚ)
    (construction_time interval_between_years : ℕ) (year : ℤ) : ℚ :=
  (if get_investment_time_step construction_time interval_between_years year
      ∈ set_time_steps_yearly then
    capacity_investment (get_investment_time_step construction_time interval_between_years year)
  else 0)
  + (if (1 : ℤ) ∈ set_time_steps_yearly_entire_horizon
        ∧ get_investment_time_step construction_time interval_between_years year
            ∉ set_time_steps_yearly
        ∧ get_investment_time_step construction_time interval_between_years year
            ∈ set_time_steps_yearly_entire_horizon then
      capacity_investment_existing
        (get_investment_time_step construction_time interval_between_years year)
    else 0)

/-- The emitted construction-time constraint:
`capacity_addition[year]` equals the assembled right-hand side. -/
def constraint_technology_construction_time_eq
    (set_time_steps_yearly set_time_steps_yearly_entire_horizon : Finset ℤ)
    (capacity_addition capacity_investment capacity_investment_existing : ℤ → ℚ)
    (construction_time interval_between_years : ℕ) (year : ℤ) : Prop :=
  capacity_addition year =
    constraint_technology_construction_time_rhs set_time_steps_yearly
      set_time_steps_yearly_entire_horizon capacity_investment capacity_investment_existing
      construction_time interval_between_years year

/-- The construction-time right-hand side as the claim states it:
investment if the shifted step is in-horizon, else the pre-horizon existing
investment if the step is in the entire horizon, else zero. -/
def claimed_construction_time_rhs
    (set_time_steps_yearly set_time_steps_yearly_entire_horizon : Finset ℤ)
    (capacity_investment capacity_investment_existing : ℤ → ℚ)
    (construction_time interval_between_years : ℕ) (year : ℤ) : ℚ :=
  if get_investment_time_step construction_time interval_between_years year
      ∈ set_time_steps_yearly then
    capacity_investment (get_investment_time_step construction_time interval_between_years year)
  else if get_investment_time_step construction_time interval_between_years year
      ∈ set_time_steps_yearly_entire_horizon then
    capacity_investment_existing
      (get_investment_time_step construction_time interval_between_years year)
  else 0

/-- C5: over an entire horizon of the form `{0, ..., n}` containing the
in-horizon steps, the emitted construction-time right-hand side coincides
with the claimed one for every in-horizon year, and a construction time of
zero yields `capacity_addition[year] = capacity_investment[year]`. -/
theorem C5_construction_time_matches_claim
    (current entire : Finset ℤ) (capacity_investment capacity_investment_existing : ℤ → ℚ)
    (construction_time interval_between_years : ℕ) (year : ℤ)
    (hI : 1 ≤ interval_between_years) (hE : ∃ n : ℤ, entire = Finset.Icc 0 n)
    (hsub : current ⊆ entire) (hy : year ∈ current) :
    constraint_technology_construction_time_rhs current entire capacity_investment
        capacity_investment_existing construction_time interval_between_years year
      = claimed_construction_time_rhs current entire capacity_investment
          capacity_investment_existing construction_time interval_between_years year
    ∧ (construction_time = 0 →
        constraint_technology_construction_time_rhs current entire capacity_investment
            capacity_investment_existing construction_time interval_between_years year
          = capacity_investment year) := by
  obtain ⟨n, rfl⟩ := hE
  have hk0 : construction_time = 0 →
      get_investment_time_step construction_time interval_between_years year = year := by
    intro h0
    have : (construction_time + interval_between_years - 1) / interval_between_years = 0 := by
      subst h0
      exact Nat.div_eq_of_lt (by omega)
    simp [get_investment_time_step, this]
  constructor
  · by_cases hs : get_investment_time_step construction_time interval_between_years year
        ∈ current
    · simp [constraint_technology_construction_time_rhs, claimed_construction_time_rhs, hs]
    · by_cases he : get_investment_time_step construction_time interval_between_years year
          ∈ Finset.Icc (0 : ℤ) n
      · have hone : (1 : ℤ) ∈ Finset.Icc (0 : ℤ) n := by
          have hy2 := Finset.mem_Icc.mp (hsub hy)
          have hs2 := Finset.mem_Icc.mp he
          rw [get_investment_time_step] at hs2
          rw [Finset.mem_Icc]
          by_cases hk : ((construction_time + interval_between_years - 1)
              / interval_between_years : ℕ) = 0
          · exfalso
            have hsy : get_investment_time_step construction_time interval_between_years year
                = year := by simp [get_investment_time_step, hk]
            exact hs (by rw [hsy]; exact hy)
          · generalize hK : ((construction_time + interval_between_years - 1)
                / interval_between_years : ℕ) = K at hs2 hk
            omega
        simp [constraint_technology_construction_time_rhs, claimed_construction_time_rhs,
          hs, he, hone]
      · simp [constraint_technology_construction_time_rhs, claimed_construction_time_rhs,
          hs, he]
  · intro h0
    simp [constraint_technology_construction_time_rhs, hk0 h0, hy]

/-- Investment values used in the C5 witness. -/
def investmentW : ℤ → ℚ := fun s => (s : ℚ)

/-- Pre-horizon investment values used in the C5 witness. -/
def investmentExistingW : ℤ → ℚ := fun s => (s : ℚ) + 100

/-- Witness for C5: horizon `{0, 1, 2}` with in-horizon steps `{1, 2}`,
construction time 3 with a 2-year interval, at year 2. -/
theorem C5_construction_time_witness :
    constraint_technology_construction_time_rhs (Finset.Icc 1 2) (Finset.Icc 0 2)
        investmentW investmentExistingW 3 2 2
      = claimed_construction_time_rhs (Finset.Icc 1 2) (Finset.Icc 0 2)
          investmentW investmentExistingW 3 2 2 :=
  (C5_construction_time_matches_claim (Finset.Icc 1 2) (Finset.Icc 0 2)
      investmentW investmentExistingW 3 2 2 (by norm_num) ⟨2, rfl⟩ (by decide) (by decide)).1

/-! ## Bidirectional transport (transport_technology.py) -/

/-- The content of one emitted bidirectional-transport constraint: built
capacity of `tech` on `edge` equals built capacity on `reversed_edge` at the
same invest step. -/
structure BidirectionalConstraint where
  tech : String
  edge : String
  reversed_edge : String
  time : ℤ
deriving DecidableEq

/-- `constraintBidirectionalTransportTechnologyRule`: emit the equality when
the technology is declared bidirectional, otherwise `Constraint.Skip`. -/
def constraintBidirectionalTransportTechnologyRule
    (setBidirectionalTransportTechnologies : List String) (getReversedEdge : String → String)
    (tech edge : String) (time : ℤ) : Option BidirectionalConstraint :=
  if tech ∈ setBidirectionalTransportTechnologies then
    some ⟨tech, edge, getReversedEdge edge, time⟩
  else none

/-- A valuation of `builtCapacity` satisfies an emitted bidirectional
constraint when the two built capacities agree. -/
def bidirectional_constraint_holds (builtCapacity : String → String → ℤ → ℚ)
    (c : BidirectionalConstraint) : Prop :=
  builtCapacity c.tech c.edge c.time = builtCapacity c.tech c.reversed_edge c.time

/-- `TransportTechnology.checkIfBidirectional`: assert that the existing
capacities (one value per existing generation) agree on every edge pair. -/
def checkIfBidirectional (setEdges : List String) (getReversedEdge : String → String)
    (existingCapacity : String → List ℚ) : Bool :=
  setEdges.all (fun edge =>
    decide (existingCapacity edge = existingCapacity (getReversedEdge edge)))

/-- C6: a bidirectional technology gets exactly the built-capacity equality on
each `(edge, invest step)`, a non-bidirectional one gets no constraint, and
the existing-capacity check passes exactly when existing capacities match
across every reverse edge pair. -/
theorem C6_bidirectional_transport_capacity (bidir : List String) (rev : String → String)
    (edges : List String) (existing : String → List ℚ) (built : String → String → ℤ → ℚ)
    (tech edge : String) (time : ℤ) :
    (tech ∈ bidir →
      constraintBidirectionalTransportTechnologyRule bidir rev tech edge time
          = some ⟨tech, edge, rev edge, time⟩
        ∧ (bidirectional_constraint_holds built ⟨tech, edge, rev edge, time⟩
            ↔ built tech edge time = built tech (rev edge) time))
    ∧ (tech ∉ bidir →
        constraintBidirectionalTransportTechnologyRule bidir rev tech edge time = none)
    ∧ (checkIfBidirectional edges rev existing = true
        ↔ ∀ e ∈ edges, existing e = existing (rev e)) := by
  refine ⟨fun h => ⟨by simp [constraintBidirectionalTransportTechnologyRule, h], Iff.rfl⟩,
    fun h => by simp [constraintBidirectionalTransportTechnologyRule, h], ?_⟩
  simp [checkIfBidirectional, List.all_eq_true]

/-- Witness for C6: the declared-bidirectional pipeline on edge `e1` with
reverse edge `e2` receives its equality constraint. -/
theorem C6_bidirectional_transport_witness :
    constraintBidirectionalTransportTechnologyRule ["pipeline"] (fun _ => "e2") "pipeline" "e1" 0
        = some ⟨"pipeline", "e1", "e2", 0⟩
    ∧ (bidirectional_constraint_holds (fun _ _ _ => 0) ⟨"pipeline", "e1", "e2", 0⟩
        ↔ (fun _ _ _ => (0 : ℚ)) "pipeline" "e1" (0 : ℤ)
            = (fun _ _ _ => (0 : ℚ)) "pipeline" "e2" (0 : ℤ)) :=
  (C6_bidirectional_transport_capacity ["pipeline"] (fun _ => "e2") ["e1"]
      (fun _ => []) (fun _ _ _ => 0) "pipeline" "e1" 0).1 (by decide)

/-! ## On/off binaries (technology.py, `Technology.construct_constraints`) -/

/-- Variables and constraints of the assembled model that are relevant to the
on/off machinery (each disjunct-rule invocation that actually adds a
constraint contributes one entry). -/
structure OnOffModelState where
  variablesList : List String
  constraintsList : List String

/-- An index tuple of the custom set
`(set_technologies, set_on_off, set_capacity_types, set_location,
set_time_steps_operation)`.  Modelled from the spec: `create_custom_set`
with `set_on_off` (element.py is not in the snapshot) yields tuples exactly
for the technologies modelled with min-load on/off semantics. -/
abbrev OnOffIndexTuple := String × String × String × ℕ

/-- The on/off block of `Technology.construct_constraints`: add the two
binary variables and the coupling constraint `tech_on + tech_off = 1`,
record the constraint count, run both disjunct rules over the on/off index
tuples, and remove the binaries and the coupling constraint again when no
disjunct constraint was added. -/
def construct_on_off_constraints (base : OnOffModelState)
    (on_off_index_values : List OnOffIndexTuple)
    (disjunct_on_adds disjunct_off_adds : OnOffIndexTuple → Bool) : OnOffModelState :=
  let withVars : OnOffModelState :=
    ⟨base.variablesList ++ ["tech_on_var", "tech_off_var"],
      base.constraintsList ++ ["tech_on_off_cons"]⟩
  let n_cons := withVars.constraintsList.length
  let withDisjuncts : OnOffModelState :=
    ⟨withVars.variablesList,
      withVars.constraintsList
        ++ (on_off_index_values.filter disjunct_on_adds).map
            (fun _ => "disjunct_on_technology")
        ++ (on_off_index_values.filter disjunct_off_adds).map
            (fun _ => "disjunct_off_technology")⟩
  if withDisjuncts.constraintsList.length = n_cons then
    ⟨withDisjuncts.variablesList.filter
        (fun v => decide (v ≠ "tech_on_var") && decide (v ≠ "tech_off_var")),
      withDisjuncts.constraintsList.filter (fun c => decide (c ≠ "tech_on_off_cons"))⟩
  else withDisjuncts

/-- C7: the final model contains the on/off binaries and the coupling
constraint `tech_on + tech_off = 1` exactly when at least one disjunct
constraint was added over the on/off tuples; and that in turn requires at
least one technology with on/off (min-load) semantics. -/
theorem C7_on_off_binaries_iff_disjunct_added (base : OnOffModelState)
    (tuples : List OnOffIndexTuple) (onAdds offAdds : OnOffIndexTuple → Bool) :
    ("tech_on_var" ∈ (construct_on_off_constraints base tuples onAdds offAdds).variablesList
        ↔ ∃ tup ∈ tuples, onAdds tup = true ∨ offAdds tup = true)
    ∧ ("tech_on_off_cons"
          ∈ (construct_on_off_constraints base tuples onAdds offAdds).constraintsList
        ↔ ∃ tup ∈ tuples, onAdds tup = true ∨ offAdds tup = true)
    ∧ ((∃ tup ∈ tuples, onAdds tup = true ∨ offAdds tup = true) → tuples ≠ []) := by
  have hnex : (¬ ∃ tup ∈ tuples, onAdds tup = true ∨ offAdds tup = true)
      ↔ tuples.filter onAdds = [] ∧ tuples.filter offAdds = [] := by
    simp only [List.filter_eq_nil_iff]
    push_neg
    constructor
    · intro h
      exact ⟨fun a ha => (h a ha).1, fun a ha => (h a ha).2⟩
    · intro h a ha
      exact ⟨h.1 a ha, h.2 a ha⟩
  have hnotnil : (∃ tup ∈ tuples, onAdds tup = true ∨ offAdds tup = true) → tuples ≠ [] := by
    rintro ⟨tup, htup, _⟩ hnil
    rw [hnil] at htup
    exact absurd htup (List.not_mem_nil tup)
  by_cases hem : ∃ tup ∈ tuples, onAdds tup = true ∨ offAdds tup = true
  · simp only [construct_on_off_constraints]
    rw [if_neg ?hcond]
    case hcond =>
      simp only [List.length_append, List.length_map, List.length_cons, List.length_nil]
      intro hcontra
      apply (hnex.mpr ?_) hem
      constructor <;> rw [← List.length_eq_zero] <;> omega
    refine ⟨?_, ?_, hnotnil⟩
    · rw [iff_true_intro hem, iff_true]
      simp
    · rw [iff_true_intro hem, iff_true]
      simp
  · obtain ⟨hA, hB⟩ := hnex.mp hem
    simp only [construct_on_off_constraints, hA, hB, List.map_nil, List.append_nil, if_true]
    rw [iff_false_intro hem]
    simp only [iff_false]
    refine ⟨?_, ?_, fun h => h.elim⟩
    · intro hmem
      have hp2 := (List.mem_filter.mp hmem).2
      exact absurd hp2 (by decide)
    · intro hmem
      have hp2 := (List.mem_filter.mp hmem).2
      exact absurd hp2 (by decide)

/-- Witness for C7: one on/off tuple whose on-disjunct adds a constraint
keeps the binaries in the model. -/
theorem C7_on_off_witness :
    ("tech_on_var" ∈ (construct_on_off_constraints ⟨[], []⟩ [("boiler", "power", "n1", 0)]
        (fun _ => true) (fun _ => false)).variablesList
      ↔ ∃ tup ∈ [(("boiler", "power", "n1", 0) : OnOffIndexTuple)],
          (fun _ => true) tup = true ∨ (fun _ => false) tup = true) :=
  (C7_on_off_binaries_iff_disjunct_added ⟨[], []⟩ [("boiler", "power", "n1", 0)]
      (fun _ => true) (fun _ => false)).1

/-! ## Component registries (component.py) -/

/-- Assignment into a keyed store, as a Python dict assignment behaves:
replace the entry when the key is present, append it otherwise. -/
def updateStored {α : Type} (store : List (String × α)) (name : String) (data : α) :
    List (String × α) :=
  if store.any (fun p => decide (p.1 = name)) then
    store.map (fun p => if p.1 = name then (name, data) else p)
  else store ++ [(name, data)]

/-- Lookup in a keyed store. -/
def lookupStored {α : Type} : List (String × α) → String → Option α
  | [], _ => none
  | p :: rest, name => if p.1 = name then some p.2 else lookupStored rest name

/-- `IndexSet.add_set`: when the name is already present the source logs
"already added. Will be overwritten!" and then stores the new data
unconditionally, replacing the original. -/
def add_set {α : Type} (sets : List (String × α)) (name : String) (data : α) :
    List (String × α) :=
  updateStored sets name data

/-- A component registry guarded by its doc keys: parameters, variables and
constraints all test `name not in self.docs.keys()` before storing. -/
structure ComponentRegistry (α : Type) where
  docsKeys : List String
  stored : List (String × α)

/-- `Parameter.add_parameter`: a second addition under a known name only logs
a warning and leaves the registry unchanged. -/
def add_parameter {α : Type} (reg : ComponentRegistry α) (name : String) (data : α) :
    ComponentRegistry α :=
  if name ∈ reg.docsKeys then reg
  else ⟨reg.docsKeys ++ [name], updateStored reg.stored name data⟩

/-- `Variable.add_variable`: same duplicate guard as the parameters. -/
def add_variable {α : Type} (reg : ComponentRegistry α) (name : String) (data : α) :
    ComponentRegistry α :=
  if name ∈ reg.docsKeys then reg
  else ⟨reg.docsKeys ++ [name], updateStored reg.stored name data⟩

/-- `Constraint.add_constraint_block`: same duplicate guard as the
parameters. -/
def add_constraint_block {α : Type} (reg : ComponentRegistry α) (name : String) (data : α) :
    ComponentRegistry α :=
  if name ∈ reg.docsKeys then reg
  else ⟨reg.docsKeys ++ [name], updateStored reg.stored name data⟩

/-- C8 counterexample: after two `add_set` calls under the same name the
stored entry is the SECOND data, not the first as the claim states. -/
theorem C8_add_set_second_addition_not_ignored :
    lookupStored
        (add_set (add_set ([] : List (String × List String)) "set_nodes" ["a"]) "set_nodes" ["b"])
        "set_nodes"
      ≠ some ["a"] := by decide

/-- C8 amended: a duplicate `add_set` overwrites the stored set with the new
data, while duplicate parameter, variable and constraint additions are
ignored and keep the originally stored data. -/
theorem C8_duplicate_registration_behaviour (name : String) (d1 d2 : List String) :
    lookupStored (add_set (add_set ([] : List (String × List String)) name d1) name d2) name
        = some d2
    ∧ lookupStored
        (add_parameter (add_parameter (⟨[], []⟩ : ComponentRegistry (List String)) name d1)
          name d2).stored name = some d1
    ∧ lookupStored
        (add_variable (add_variable (⟨[], []⟩ : ComponentRegistry (List String)) name d1)
          name d2).stored name = some d1
    ∧ lookupStored
        (add_constraint_block
          (add_constraint_block (⟨[], []⟩ : ComponentRegistry (List String)) name d1)
          name d2).stored name = some d1 := by
  refine ⟨?_, ?_, ?_, ?_⟩ <;>
    simp [add_set, add_parameter, add_variable, add_constraint_block, updateStored, lookupStored]

/-! ## Time-series aggregation setup (time_series_aggregation.py) -/

/-- One element together with its raw time series
(attribute name, hourly values of a single year). -/
structure RawElementData where
  name : String
  raw_time_series : List (String × List ℚ)

/-- What the aggregation stage produces: the operational grid and the
aggregated series per (element, attribute). -/
structure AggregationOutcome where
  set_time_steps : List ℕ
  time_steps_duration : List ℕ
  sequence_time_steps : List ℕ
  aggregated_series : List (String × String × List ℚ)
deriving DecidableEq

/-- `TimeSeriesAggregation.manually_aggregate_ts` for one column: per
operational step, average (k_means) or median (k_medoids) of the raw hours
the sequence assigns to that step. -/
def manually_aggregate_series (cluster_method : String)
    (set_time_steps sequence_time_steps : List ℕ) (raw : List ℚ) : Except String (List ℚ) :=
  if cluster_method = "k_means" then
    .ok (set_time_steps.map (fun t =>
      let hrs := (List.range sequence_time_steps.length).filter
        (fun b => sequence_time_steps.getD b 0 = t)
      (hrs.map (fun b => raw.getD b 0)).sum / (hrs.length : ℚ)))
  else if cluster_method = "k_medoids" then
    .ok (set_time_steps.map (fun t =>
      let hrs := (List.range sequence_time_steps.length).filter
        (fun b => sequence_time_steps.getD b 0 = t)
      let sorted := (hrs.map (fun b => raw.getD b 0)).mergeSort (fun a b => decide (a ≤ b))
      if sorted.length % 2 = 1 then sorted.getD (sorted.length / 2) 0
      else (sorted.getD (sorted.length / 2 - 1) 0 + sorted.getD (sorted.length / 2) 0) / 2))
  else .error "NotImplementedError: cluster method not implemented for manual aggregation"

/-- `TimeSeriesAggregation.set_aggregated_ts_all_elements` for one raw
series, on a path where `typical_periods` is empty (so every column counts as
not aggregated): the source first tests membership of `(element, attribute)`
in `self.excluded_ts` - an attribute that is assigned ONLY inside
`select_ts_of_all_elements`; reading it when that method never ran raises an
AttributeError. -/
def set_aggregated_ts_one_series (excluded_ts : Option (List (String × String)))
    (set_time_steps sequence_time_steps : List ℕ) (cluster_method : String)
    (element_name ts_name : String) (raw : List ℚ) : Except String (List ℚ) :=
  match excluded_ts with
  | none => .error "AttributeError: TimeSeriesAggregation object has no attribute excluded_ts"
  | some exc =>
    if (element_name, ts_name) ∈ exc then
      manually_aggregate_series cluster_method set_time_steps sequence_time_steps raw
    else
      .ok (set_time_steps.map (fun t => raw.getD t 0))

/-- `set_aggregated_ts_all_elements` over all elements and attributes. -/
def set_aggregated_ts_all_elements (excluded_ts : Option (List (String × String)))
    (set_time_steps sequence_time_steps : List ℕ) (cluster_method : String)
    (elements : List RawElementData) : Except String (List (String × String × List ℚ)) := do
  let lists ← elements.mapM (fun el =>
    el.raw_time_series.mapM (fun ts => do
      let agg ← set_aggregated_ts_one_series excluded_ts set_time_steps sequence_time_steps
        cluster_method el.name ts.1 ts.2
      pure (el.name, ts.1, agg)))
  pure lists.flatten

/-- `TimeSeriesAggregation.__init__`: aggregate when the requested number of
typical periods is below the number of base steps and aggregation is enabled
(the clustering outcome of the external tsam library is passed in); otherwise
keep the base grid - base steps, duration 1 each (modelled from the spec for
the absent `calculatetime_step_duration`), the identity sequence - and set
the aggregated series WITHOUT `excluded_ts` ever having been assigned, since
only `select_ts_of_all_elements` on the aggregation path assigns it. -/
def TimeSeriesAggregation_init (conduct_time_series_aggregation : Bool)
    (unaggregated_time_steps_per_year aggregated_time_steps_per_year : ℕ)
    (cluster_method : String) (elements : List RawElementData)
    (run_tsa_outcome : Except String AggregationOutcome) : Except String AggregationOutcome :=
  let number_typical_periods :=
    min unaggregated_time_steps_per_year aggregated_time_steps_per_year
  if number_typical_periods < unaggregated_time_steps_per_year
      ∧ conduct_time_series_aggregation = true then
    run_tsa_outcome
  else
    let set_time_steps := List.range unaggregated_time_steps_per_year
    let time_steps_duration := set_time_steps.map (fun _ => 1)
    let sequence_time_steps :=
      set_time_steps.flatMap (fun t => List.replicate (time_steps_duration.getD t 1) t)
    match set_aggregated_ts_all_elements none set_time_steps sequence_time_steps
        cluster_method elements with
    | .error e => .error e
    | .ok agg => .ok ⟨set_time_steps, time_steps_duration, sequence_time_steps, agg⟩

/-- C9: with aggregation disabled and one element carrying one raw series,
the stage aborts with an AttributeError instead of producing the identity
grid with copied series (`excluded_ts` is only assigned on the aggregation
path); with no raw series present the same path does produce the identity
base grid, confirming what the claim expected of the grid itself. -/
theorem C9_disabled_aggregation_raises_attribute_error :
    TimeSeriesAggregation_init false 4 4 "k_means"
        [⟨"heat", [("demand_carrier", [1, 2, 3, 4])]⟩] (.ok ⟨[], [], [], []⟩)
      = .error "AttributeError: TimeSeriesAggregation object has no attribute excluded_ts"
    ∧ TimeSeriesAggregation_init false 2 2 "k_means" [⟨"heat", []⟩] (.ok ⟨[], [], [], []⟩)
      = .ok ⟨[0, 1], [1, 1], [0, 1], []⟩ := by
  constructor <;> rfl

/-! ## Yearly variation and rounding (time_series_aggregation.py, `multiply_yearly_variation`) -/

/-- The multiplication step of `multiply_yearly_variation`: when a yearly
variation Series exists for the attribute, each operational entry is
multiplied by the variation of the year its step belongs to (the source
special-cases a constant variation and skips years whose factors are all 1;
both are value-equivalent to the uniform multiplication). -/
def apply_yearly_variation (yearly_variation : Option (ℕ → ℚ)) (year_of_step : ℕ → ℕ)
    (ts : List ℚ) : List ℚ :=
  match yearly_variation with
  | none => ts
  | some f => ((List.range ts.length).zip ts).map (fun p => f (year_of_step p.1) * p.2)

/-- `multiply_yearly_variation`: after the multiplication, every entry whose
magnitude is strictly below `10 ^ (-rounding_decimal_points_ts)` is set to
exactly zero. -/
def multiply_yearly_variation (rounding_decimal_points_ts : ℕ)
    (yearly_variation : Option (ℕ → ℚ)) (year_of_step : ℕ → ℕ) (ts : List ℚ) : List ℚ :=
  (apply_yearly_variation yearly_variation year_of_step ts).map
    (fun v => if |v| < (1 / 10 : ℚ) ^ rounding_decimal_points_ts then 0 else v)

/-- C10: every entry of a time series stored by `multiply_yearly_variation`
whose magnitude is strictly below the rounding threshold is exactly zero; in
particular no entry `v` satisfies `0 < |v| < 10 ^ (-d)`. -/
theorem C10_linked_series_rounded_below_threshold (rounding_decimal_points_ts : ℕ)
    (yearly_variation : Option (ℕ → ℚ)) (year_of_step : ℕ → ℕ) (ts : List ℚ) (v : ℚ)
    (hv : v ∈ multiply_yearly_variation rounding_decimal_points_ts yearly_variation
        year_of_step ts)
    (hsmall : |v| < (1 / 10 : ℚ) ^ rounding_decimal_points_ts) :
    v = 0 := by
  rcases List.mem_map.mp hv with ⟨u, _, hu⟩
  by_cases h : |u| < (1 / 10 : ℚ) ^ rounding_decimal_points_ts
  · rw [← hu, if_pos h]
  · rw [← hu, if_neg h] at hsmall
    rw [← hu, if_neg h]
    exact absurd hsmall h

/-- Witness for C10: the zero entry of a stored series is below the rounding
threshold and indeed equals zero. -/
theorem C10_rounding_witness :
    (0 : ℚ) ∈ multiply_yearly_variation 2 none (fun _ => 0) [(0 : ℚ)]
    ∧ (0 : ℚ) = 0 := by
  have hmem : (0 : ℚ) ∈ multiply_yearly_variation 2 none (fun _ => 0) [(0 : ℚ)] := by
    simp [multiply_yearly_variation, apply_yearly_variation, ite_self]
  have hsmall : |(0 : ℚ)| < (1 / 10 : ℚ) ^ 2 := by
    rw [abs_zero]
    positivity
  exact ⟨hmem, C10_linked_series_rounded_below_threshold 2 none (fun _ => 0) [(0 : ℚ)] 0
    hmem hsmall⟩

end ZenGarden
